import Mathlib

/-!
# Verification of the pancho-degen-arena round settlement engine

A shallow embedding of the round lifecycle / settlement code:

* `src/lib/sim-settlement.ts` — pro-rata payout arithmetic (`proRataCents`),
  the settlement decision (`settleRound`), the oracle nearest-timestamp
  fallback (`fetchSnapshotNearTimestamp`), the refund fallback
  (`settleRoundSafe`, `buildRefundSettlement`) and the once-only driver
  (`settleSimRoundOnce`).
* `src/lib/sim-ledger.ts` — the result ordering of the settlement's entry
  read (`readSimEntriesForRoundIds`, `ORDER BY joined_at_ms DESC`).
* Lamports settlement path (`createProcessingSettlement`,
  `addProRataPayouts`, `settleDueRounds`) and the durable round ledger
  (`appendSettlementTransfer`, `tryAcquireRoundProcessingLock`).
* `src/app/api/entries/route.ts` — the JoinHandler `POST` endpoint.

All monetary quantities (cents, lamports) are nonnegative integers in the
source paths modelled here, so they are embedded as `Nat`; JS
`Math.floor(a / b)` on nonnegative integers is `Nat` division, and
`Math.max(0, a - b)` is truncated `Nat` subtraction.  Oracle prices are
embedded as exact rationals: the claims below only ever compare prices.
-/

namespace Pancho

/-- Entry direction (`"UP" | "DOWN"`). -/
inductive Dir where
  | UP : Dir
  | DOWN : Dir
deriving DecidableEq, Repr

/-- Settlement mode (`"WIN" | "REFUND"`). -/
inductive SettleMode where
  | WIN : SettleMode
  | REFUND : SettleMode
deriving DecidableEq, Repr

/-- `SimEntry` from `src/lib/sim-ledger.ts` (fields used by settlement). -/
structure SimEntry where
  id : String
  roundId : String
  market : String
  wallet : String
  direction : Dir
  stakeBucks : Nat
  joinedAtMs : Nat
  roundStartMs : Nat
  roundEndMs : Nat
deriving DecidableEq, Repr

/-- `Math.round(item.stakeBucks * 100)`: sim stakes are whole-dollar tier
values, so the rounding is exact multiplication by 100. -/
def stakeCents (e : SimEntry) : Nat := e.stakeBucks * 100

/-- One element of the `recipients` argument of `proRataCents`
(`{ entryId, cents }`). -/
structure Recip where
  entryId : String
  cents : Nat
deriving DecidableEq, Repr

/-- The `prepared` array of `proRataCents`:
`Math.floor((distributableCents * item.cents) / inputTotalCents)` per item. -/
def preparedAllocs (recipients : List Recip) (distributableCents inputTotalCents : Nat) :
    List Recip :=
  recipients.map fun item =>
    { entryId := item.entryId
      cents := distributableCents * item.cents / inputTotalCents }

/-- `if (remainder > 0 && prepared.length > 0) prepared[0].cents += remainder`. -/
def addRemainderToHead (prepared : List Recip) (remainder : Nat) : List Recip :=
  if 0 < remainder then
    match prepared with
    | [] => []
    | h :: t => { h with cents := h.cents + remainder } :: t
  else prepared

/-- `proRataCents` from `src/lib/sim-settlement.ts` (lines 32-56).  The TS
function returns a `Map` built from the `prepared` array keyed by
`entryId`; we return that array itself (entry ids are unique in the
ledger). -/
def proRataCents (recipients : List Recip) (distributableCents inputTotalCents : Nat) :
    List Recip :=
  if distributableCents = 0 ∨ inputTotalCents = 0 ∨ recipients = [] then []
  else
    let prepared := preparedAllocs recipients distributableCents inputTotalCents
    addRemainderToHead prepared (distributableCents - (prepared.map Recip.cents).sum)

/-- `FEE_BPS = 600` in both settlement paths. -/
def FEE_BPS : Nat := 600

/-- The settlement snapshot produced by `settleRound`
(`SimRoundSettlementSnapshot` without the wall-clock `settledAtMs`). -/
structure SimSnapshot where
  mode : SettleMode
  winnerSide : Option Dir
  startPrice : ℚ
  endPrice : ℚ
  payouts : List Recip
  feeCents : Nat
deriving DecidableEq, Repr

/-- The pure core of `settleRound` (`src/lib/sim-settlement.ts` lines 83-133)
once the two oracle snapshots have been fetched. -/
def settleRoundWith (entries : List SimEntry) (startPrice endPrice : ℚ) : SimSnapshot :=
  let up := entries.filter fun item => item.direction = Dir.UP
  let down := entries.filter fun item => item.direction = Dir.DOWN
  let totalCents := (entries.map stakeCents).sum
  let isRefundRound := up.length = 0 ∨ down.length = 0 ∨ endPrice = startPrice
  let feeCents := if isRefundRound then 0 else totalCents * FEE_BPS / 10000
  let distributableCents := totalCents - feeCents
  let decision : SettleMode × Option Dir :=
    if up.length = 0 ∨ down.length = 0 then (SettleMode.REFUND, none)
    else if startPrice < endPrice then (SettleMode.WIN, some Dir.UP)
    else if endPrice < startPrice then (SettleMode.WIN, some Dir.DOWN)
    else (SettleMode.REFUND, none)
  let payouts :=
    if decision.1 = SettleMode.REFUND then
      proRataCents (entries.map fun item => { entryId := item.id, cents := stakeCents item })
        distributableCents totalCents
    else
      let winners := entries.filter fun item => some item.direction = decision.2
      proRataCents (winners.map fun item => { entryId := item.id, cents := stakeCents item })
        distributableCents ((winners.map stakeCents).sum)
  { mode := decision.1
    winnerSide := decision.2
    startPrice := startPrice
    endPrice := endPrice
    payouts := payouts
    feeCents := feeCents }

/-! ### Pro-rata arithmetic lemmas -/

theorem nat_div_add_div_le (a b n : Nat) : a / n + b / n ≤ (a + b) / n := by
  rcases Nat.eq_zero_or_pos n with h | h
  · subst h; simp
  · rw [Nat.le_div_iff_mul_le h, Nat.add_mul]
    exact Nat.add_le_add (Nat.div_mul_le_self a n) (Nat.div_mul_le_self b n)

theorem sum_map_div_le_sum_div (l : List Nat) (n : Nat) :
    (l.map fun x => x / n).sum ≤ l.sum / n := by
  induction l with
  | nil => simp
  | cons a t ih =>
      simpa using le_trans (Nat.add_le_add_left ih (a / n)) (nat_div_add_div_le a t.sum n)

theorem sum_map_mul_left_cents (d : Nat) (l : List Recip) :
    (l.map fun item => d * item.cents).sum = d * (l.map Recip.cents).sum := by
  induction l with
  | nil => simp
  | cons a t ih => simp [ih, Nat.mul_add]

/-- Adding the remainder to the head of a nonempty list adds it to the sum. -/
theorem addRemainderToHead_sum (prepared : List Recip) (remainder : Nat)
    (hne : prepared ≠ []) :
    ((addRemainderToHead prepared remainder).map Recip.cents).sum
      = (prepared.map Recip.cents).sum + remainder := by
  rcases prepared with _ | ⟨h, t⟩
  · exact absurd rfl hne
  · rw [addRemainderToHead]
    split
    · simp only [List.map_cons, List.sum_cons]
      omega
    · simp only [List.map_cons, List.sum_cons]
      omega

/-- Each prepared allocation sums to at most the distributable amount when the
input total is the actual weight sum. -/
theorem proRata_paid_le (recipients : List Recip) (d : Nat)
    (hW : 0 < (recipients.map Recip.cents).sum) :
    ((preparedAllocs recipients d ((recipients.map Recip.cents).sum)).map
      Recip.cents).sum ≤ d := by
  set W := (recipients.map Recip.cents).sum with hWdef
  have h1 : ((preparedAllocs recipients d W).map Recip.cents).sum
      = ((recipients.map fun item => d * item.cents).map fun x => x / W).sum := by
    rw [preparedAllocs, List.map_map, List.map_map]
    rfl
  have h2 : ((recipients.map fun item => d * item.cents).map fun x => x / W).sum
      ≤ (recipients.map fun item => d * item.cents).sum / W :=
    sum_map_div_le_sum_div _ W
  rw [h1]
  calc ((recipients.map fun item => d * item.cents).map fun x => x / W).sum
      ≤ (recipients.map fun item => d * item.cents).sum / W := h2
    _ = d * W / W := by rw [sum_map_mul_left_cents]
    _ = d := Nat.mul_div_cancel d hW

/-- Conservation of `proRataCents`: with the input total equal to the weight
sum, the allocations sum exactly to the distributable amount. -/
theorem proRata_sum_eq (recipients : List Recip) (d : Nat)
    (hne : recipients ≠ []) (hW : 0 < (recipients.map Recip.cents).sum) :
    ((proRataCents recipients d ((recipients.map Recip.cents).sum)).map Recip.cents).sum
      = d := by
  rcases Nat.eq_zero_or_pos d with hd | hd
  · subst hd
    simp [proRataCents]
  · have hpaid := proRata_paid_le recipients d hW
    have hprepne : preparedAllocs recipients d ((recipients.map Recip.cents).sum) ≠ [] := by
      rw [preparedAllocs]
      simpa using hne
    rw [proRataCents, if_neg (by push_neg; exact ⟨by omega, by omega, hne⟩)]
    rw [addRemainderToHead_sum _ _ hprepne]
    omega

/-- Every allocation of `proRataCents` is nonnegative (allocations are `Nat`
floors of products of nonnegative integers). -/
theorem proRata_nonneg (recipients : List Recip) (d W : Nat) :
    ∀ a ∈ proRataCents recipients d W, 0 ≤ a.cents := by
  intro a _
  exact Nat.zero_le _

/-- The fee never exceeds the pool when the fee rate is at most 100%. -/
theorem fee_le_total (total feeBps : Nat) (hbps : feeBps ≤ 10000) :
    total * feeBps / 10000 ≤ total := by
  have h : total * 10000 / 10000 = total := by
    rw [Nat.mul_comm]
    exact Nat.mul_div_cancel_left total (by norm_num)
  calc total * feeBps / 10000 ≤ total * 10000 / 10000 :=
        Nat.div_le_div_right (Nat.mul_le_mul_left total hbps)
    _ = total := h

/-- **C2.** For every nonempty recipient list with positive integer weights,
every fee rate of at most 10000 bps, and every pool total: the pro-rata
allocation (floors plus the whole remainder added to one recipient) sums
exactly to `distributable = total - fee`, so payouts plus the fee equal the
total pool, and no allocation is negative. -/
theorem proRataConservation (recipients : List Recip) (feeBps total : Nat)
    (hne : recipients ≠ []) (hpos : ∀ r ∈ recipients, 0 < r.cents)
    (hbps : feeBps ≤ 10000) :
    ((proRataCents recipients (total - total * feeBps / 10000)
        ((recipients.map Recip.cents).sum)).map Recip.cents).sum
      = total - total * feeBps / 10000 ∧
    ((proRataCents recipients (total - total * feeBps / 10000)
        ((recipients.map Recip.cents).sum)).map Recip.cents).sum
        + total * feeBps / 10000 = total ∧
    ∀ a ∈ proRataCents recipients (total - total * feeBps / 10000)
        ((recipients.map Recip.cents).sum), 0 ≤ a.cents := by
  have hW : 0 < (recipients.map Recip.cents).sum := by
    match recipients, hne with
    | r :: rest, _ =>
        have hr : 0 < r.cents := hpos r (List.mem_cons_self r rest)
        simp only [List.map_cons, List.sum_cons]
        omega
  have hfee : total * feeBps / 10000 ≤ total := fee_le_total total feeBps hbps
  have hsum := proRata_sum_eq recipients (total - total * feeBps / 10000) hne hW
  refine ⟨hsum, ?_, proRata_nonneg _ _ _⟩
  omega

/-! ### Lamports settlement path (`settleDueRounds` / `createProcessingSettlement`) -/

/-- A ledger entry as consumed by `createProcessingSettlement` (fields used). -/
structure LamEntry where
  wallet : String
  direction : Dir
  stakeLamports : Nat
  roundStartMs : Nat
  roundEndMs : Nat
deriving DecidableEq, Repr

/-- `Recipient` (`{ wallet, lamports }`). -/
structure Recipient where
  wallet : String
  lamports : Nat
deriving DecidableEq, Repr

/-- `addProRataPayouts` (lamports path, same algorithm as `proRataCents`):
floor shares plus whole remainder to the first winner. -/
def addProRataPayouts (winners : List Recipient)
    (distributableLamports winnerStakeTotalLamports : Nat) : List Recipient :=
  if winnerStakeTotalLamports = 0 ∨ distributableLamports = 0 ∨ winners = [] then []
  else
    let payouts := winners.map fun winner =>
      { wallet := winner.wallet
        lamports := distributableLamports * winner.lamports / winnerStakeTotalLamports }
    let paid := (payouts.map Recipient.lamports).sum
    let remainder := distributableLamports - paid
    if 0 < remainder then
      match payouts with
      | [] => []
      | h :: t => { h with lamports := h.lamports + remainder } :: t
    else payouts

/-- The `merged` wallet map of the REFUND branch: a JS `Map` accumulation
that sums stakes per wallet, preserving first-occurrence insertion order. -/
def mergeByWallet (entries : List LamEntry) : List Recipient :=
  entries.foldl
    (fun acc entry =>
      if acc.any fun r => r.wallet = entry.wallet then
        acc.map fun r =>
          if r.wallet = entry.wallet then { r with lamports := r.lamports + entry.stakeLamports }
          else r
      else acc ++ [{ wallet := entry.wallet, lamports := entry.stakeLamports }])
    []

/-- A planned transfer (`{ id, wallet, lamports, kind }`). -/
structure PlannedTransfer where
  id : String
  wallet : String
  lamports : Nat
  kind : String
deriving DecidableEq, Repr

/-- `RoundSettlement` as produced by `createProcessingSettlement`
(persisted fields that the claims are about). -/
structure LamSettlement where
  roundId : String
  mode : SettleMode
  winnerSide : Option Dir
  startPrice : ℚ
  endPrice : ℚ
  feeLamports : Nat
  payoutRecipients : List Recipient
  plannedTransfers : List PlannedTransfer
deriving DecidableEq, Repr

/-- The pure core of `createProcessingSettlement` (lamports path, lines
246-314) once the two oracle snapshots have been fetched.  Note that
`feeLamports` is computed before the REFUND/WIN branch and is not zeroed
in the REFUND branch. -/
def createProcessingSettlement (roundId : String) (entries : List LamEntry)
    (startPrice endPrice : ℚ) (treasuryWallet signerWallet : String) : LamSettlement :=
  let up := entries.filter fun item => item.direction = Dir.UP
  let down := entries.filter fun item => item.direction = Dir.DOWN
  let upLamports := (up.map LamEntry.stakeLamports).sum
  let downLamports := (down.map LamEntry.stakeLamports).sum
  let totalLamports := upLamports + downLamports
  let feeLamports := totalLamports * FEE_BPS / 10000
  let distributable := totalLamports - feeLamports
  let decision : SettleMode × Option Dir × List Recipient :=
    if upLamports = 0 ∨ downLamports = 0 ∨ endPrice = startPrice then
      let recipients := mergeByWallet entries
      let recipientStakeTotal := (recipients.map Recipient.lamports).sum
      (SettleMode.REFUND, none, addProRataPayouts recipients distributable recipientStakeTotal)
    else
      let winnerSide := if endPrice > startPrice then Dir.UP else Dir.DOWN
      let winners := (if winnerSide = Dir.UP then up else down).map fun item =>
        { wallet := item.wallet, lamports := item.stakeLamports }
      let winnerStakeTotal := (winners.map Recipient.lamports).sum
      (SettleMode.WIN, some winnerSide, addProRataPayouts winners distributable winnerStakeTotal)
  let feeTransfers : List PlannedTransfer :=
    if 0 < feeLamports ∧ treasuryWallet ≠ "" ∧ treasuryWallet ≠ signerWallet then
      [{ id := "fee-0", wallet := treasuryWallet, lamports := feeLamports, kind := "fee" }]
    else []
  let payoutTransfers : List PlannedTransfer :=
    decision.2.2.enum.filterMap fun pair =>
      if pair.2.lamports = 0 then none
      else some
        { id := "payout-" ++ toString pair.1
          wallet := pair.2.wallet
          lamports := pair.2.lamports
          kind := "payout" }
  { roundId := roundId
    mode := decision.1
    winnerSide := decision.2.1
    startPrice := startPrice
    endPrice := endPrice
    feeLamports := feeLamports
    payoutRecipients := decision.2.2
    plannedTransfers := feeTransfers ++ payoutTransfers }

/-- `upLamports` of `createProcessingSettlement`. -/
def upLamportsOf (entries : List LamEntry) : Nat :=
  ((entries.filter fun item => item.direction = Dir.UP).map LamEntry.stakeLamports).sum

/-- `downLamports` of `createProcessingSettlement`. -/
def downLamportsOf (entries : List LamEntry) : Nat :=
  ((entries.filter fun item => item.direction = Dir.DOWN).map LamEntry.stakeLamports).sum

/-- Total cents staked on the UP side of a sim round. -/
def upCentsOf (entries : List SimEntry) : Nat :=
  ((entries.filter fun item => item.direction = Dir.UP).map stakeCents).sum

/-- Total cents staked on the DOWN side of a sim round. -/
def downCentsOf (entries : List SimEntry) : Nat :=
  ((entries.filter fun item => item.direction = Dir.DOWN).map stakeCents).sum

/-- Witness for C2 at a concrete input (two winners with weights 50 and 25,
6% fee on a pool of 105 cents — Scenario A of the spec scaled to cents). -/
theorem proRataConservation_witness :
    (([⟨"alice", 50⟩, ⟨"bob", 25⟩] : List Recip) ≠ [] ∧
      (∀ r ∈ ([⟨"alice", 50⟩, ⟨"bob", 25⟩] : List Recip), 0 < r.cents) ∧
      FEE_BPS ≤ 10000) ∧
    ((proRataCents [⟨"alice", 50⟩, ⟨"bob", 25⟩] (105 - 105 * FEE_BPS / 10000)
        (([⟨"alice", 50⟩, ⟨"bob", 25⟩] : List Recip).map Recip.cents).sum).map
      Recip.cents).sum + 105 * FEE_BPS / 10000 = 105 :=
  ⟨⟨by decide, by decide, by decide⟩,
    (proRataConservation [⟨"alice", 50⟩, ⟨"bob", 25⟩] FEE_BPS 105
      (by decide) (by decide) (by decide)).2.1⟩

/-- A `Nat` list of positive elements sums to zero exactly when it is empty. -/
theorem sum_stakeCents_eq_zero_iff (l : List SimEntry)
    (hpos : ∀ e ∈ l, 0 < stakeCents e) :
    (l.map stakeCents).sum = 0 ↔ l = [] := by
  cases l with
  | nil => simp
  | cons a t =>
      have ha : 0 < stakeCents a := hpos a (List.mem_cons_self a t)
      simp only [List.map_cons, List.sum_cons]
      constructor
      · intro h
        omega
      · intro h
        exact absurd h (by simp)

/-- **C1.** Failing input for the REFUND zero-fee claim on the lamports
settlement path: a one-sided round (`alice` stakes 40 lamports UP, nobody
DOWN) settles as REFUND, yet `createProcessingSettlement` still charges
`fee = floor(40 × 600 / 10000) = 2` and refunds only 38, planning a fee
transfer of 2 to the treasury — the distributable amount is not the
combined pool total and the fee is not 0.  (The sim path
`settleRound` does zero the fee on REFUND.) -/
theorem refundFeeCharged_lamports :
    createProcessingSettlement "SOL-1000-5m"
        [{ wallet := "alice", direction := Dir.UP, stakeLamports := 40,
           roundStartMs := 1000000, roundEndMs := 1360000 }]
        100 100 "TREASURY" "SIGNER"
      = { roundId := "SOL-1000-5m"
          mode := SettleMode.REFUND
          winnerSide := none
          startPrice := 100
          endPrice := 100
          feeLamports := 2
          payoutRecipients := [{ wallet := "alice", lamports := 38 }]
          plannedTransfers :=
            [{ id := "fee-0", wallet := "TREASURY", lamports := 2, kind := "fee" },
             { id := "payout-0", wallet := "alice", lamports := 38, kind := "payout" }] } ∧
    (createProcessingSettlement "SOL-1000-5m"
        [{ wallet := "alice", direction := Dir.UP, stakeLamports := 40,
           roundStartMs := 1000000, roundEndMs := 1360000 }]
        100 100 "TREASURY" "SIGNER").feeLamports ≠ 0 := by
  constructor
  · rfl
  · decide

/-! ### Settlement decision characterization (C4) -/

theorem cps_refund (roundId treasury signer : String) (entries : List LamEntry)
    (sp ep : ℚ)
    (h : upLamportsOf entries = 0 ∨ downLamportsOf entries = 0 ∨ ep = sp) :
    (createProcessingSettlement roundId entries sp ep treasury signer).mode
        = SettleMode.REFUND ∧
    (createProcessingSettlement roundId entries sp ep treasury signer).winnerSide = none := by
  simp only [upLamportsOf, downLamportsOf] at h
  simp only [createProcessingSettlement]
  rw [if_pos h]
  exact ⟨rfl, rfl⟩

theorem cps_win_up (roundId treasury signer : String) (entries : List LamEntry)
    (sp ep : ℚ)
    (h : ¬(upLamportsOf entries = 0 ∨ downLamportsOf entries = 0 ∨ ep = sp))
    (hgt : ep > sp) :
    (createProcessingSettlement roundId entries sp ep treasury signer).mode
        = SettleMode.WIN ∧
    (createProcessingSettlement roundId entries sp ep treasury signer).winnerSide
        = some Dir.UP := by
  simp only [upLamportsOf, downLamportsOf] at h
  simp only [createProcessingSettlement]
  rw [if_neg h, if_pos hgt]
  exact ⟨rfl, rfl⟩

theorem cps_win_down (roundId treasury signer : String) (entries : List LamEntry)
    (sp ep : ℚ)
    (h : ¬(upLamportsOf entries = 0 ∨ downLamportsOf entries = 0 ∨ ep = sp))
    (hgt : ¬(ep > sp)) :
    (createProcessingSettlement roundId entries sp ep treasury signer).mode
        = SettleMode.WIN ∧
    (createProcessingSettlement roundId entries sp ep treasury signer).winnerSide
        = some Dir.DOWN := by
  simp only [upLamportsOf, downLamportsOf] at h
  simp only [createProcessingSettlement]
  rw [if_neg h, if_neg hgt]
  exact ⟨rfl, rfl⟩

theorem srw_refund_sides (entries : List SimEntry) (sp ep : ℚ)
    (h : (entries.filter fun item => item.direction = Dir.UP).length = 0 ∨
      (entries.filter fun item => item.direction = Dir.DOWN).length = 0) :
    (settleRoundWith entries sp ep).mode = SettleMode.REFUND ∧
    (settleRoundWith entries sp ep).winnerSide = none := by
  simp only [settleRoundWith]
  rw [if_pos h]
  exact ⟨rfl, rfl⟩

theorem srw_win_up (entries : List SimEntry) (sp ep : ℚ)
    (h : ¬((entries.filter fun item => item.direction = Dir.UP).length = 0 ∨
      (entries.filter fun item => item.direction = Dir.DOWN).length = 0))
    (hgt : sp < ep) :
    (settleRoundWith entries sp ep).mode = SettleMode.WIN ∧
    (settleRoundWith entries sp ep).winnerSide = some Dir.UP := by
  simp only [settleRoundWith]
  rw [if_neg h, if_pos hgt]
  exact ⟨rfl, rfl⟩

theorem srw_win_down (entries : List SimEntry) (sp ep : ℚ)
    (h : ¬((entries.filter fun item => item.direction = Dir.UP).length = 0 ∨
      (entries.filter fun item => item.direction = Dir.DOWN).length = 0))
    (hgt : ¬(sp < ep)) (hlt : ep < sp) :
    (settleRoundWith entries sp ep).mode = SettleMode.WIN ∧
    (settleRoundWith entries sp ep).winnerSide = some Dir.DOWN := by
  simp only [settleRoundWith]
  rw [if_neg h, if_neg hgt, if_pos hlt]
  exact ⟨rfl, rfl⟩

theorem srw_refund_tie (entries : List SimEntry) (sp ep : ℚ)
    (h : ¬((entries.filter fun item => item.direction = Dir.UP).length = 0 ∨
      (entries.filter fun item => item.direction = Dir.DOWN).length = 0))
    (hgt : ¬(sp < ep)) (hlt : ¬(ep < sp)) :
    (settleRoundWith entries sp ep).mode = SettleMode.REFUND ∧
    (settleRoundWith entries sp ep).winnerSide = none := by
  simp only [settleRoundWith]
  rw [if_neg h, if_neg hgt, if_neg hlt]
  exact ⟨rfl, rfl⟩

/-- With positive stakes a side filter is empty exactly when its cent total
is zero. -/
theorem side_empty_iff_cents_zero (entries : List SimEntry) (d : Dir)
    (hpos : ∀ e ∈ entries, 0 < stakeCents e) :
    ((entries.filter fun item => item.direction = d).length = 0 ↔
      ((entries.filter fun item => item.direction = d).map stakeCents).sum = 0) := by
  have hposf : ∀ e ∈ entries.filter fun item => item.direction = d, 0 < stakeCents e :=
    fun e he => hpos e (List.mem_of_mem_filter he)
  rw [List.length_eq_zero, sum_stakeCents_eq_zero_iff _ hposf]

/-- **C4.** The settlement decision: WIN/UP exactly when both side totals are
nonzero and the end price exceeds the start price; WIN/DOWN exactly when both
side totals are nonzero and the end price is below the start price; REFUND
otherwise (a zero side total or a price tie).  Consequently every WIN round
has a winner side, positive side totals, and distinct prices.  Stated for the
lamports path (`createProcessingSettlement`), and for the sim path
(`settleRound`) whose side-emptiness test coincides with the side totals
because sim stakes are positive tier values. -/
theorem settleDecisionCharacterization
    (roundId treasury signer : String) (entries : List LamEntry) (sp ep : ℚ)
    (simEntries : List SimEntry) (sp' ep' : ℚ)
    (hpos : ∀ e ∈ simEntries, 0 < stakeCents e) :
    (((createProcessingSettlement roundId entries sp ep treasury signer).mode
          = SettleMode.WIN ∧
        (createProcessingSettlement roundId entries sp ep treasury signer).winnerSide
          = some Dir.UP) ↔
      upLamportsOf entries ≠ 0 ∧ downLamportsOf entries ≠ 0 ∧ ep > sp) ∧
    (((createProcessingSettlement roundId entries sp ep treasury signer).mode
          = SettleMode.WIN ∧
        (createProcessingSettlement roundId entries sp ep treasury signer).winnerSide
          = some Dir.DOWN) ↔
      upLamportsOf entries ≠ 0 ∧ downLamportsOf entries ≠ 0 ∧ ep < sp) ∧
    ((createProcessingSettlement roundId entries sp ep treasury signer).mode
          = SettleMode.REFUND ↔
      upLamportsOf entries = 0 ∨ downLamportsOf entries = 0 ∨ ep = sp) ∧
    ((createProcessingSettlement roundId entries sp ep treasury signer).mode
          = SettleMode.WIN →
      (∃ w, (createProcessingSettlement roundId entries sp ep treasury signer).winnerSide
          = some w) ∧
        0 < upLamportsOf entries ∧ 0 < downLamportsOf entries ∧ sp ≠ ep) ∧
    (((settleRoundWith simEntries sp' ep').mode = SettleMode.WIN ∧
        (settleRoundWith simEntries sp' ep').winnerSide = some Dir.UP) ↔
      upCentsOf simEntries ≠ 0 ∧ downCentsOf simEntries ≠ 0 ∧ ep' > sp') ∧
    (((settleRoundWith simEntries sp' ep').mode = SettleMode.WIN ∧
        (settleRoundWith simEntries sp' ep').winnerSide = some Dir.DOWN) ↔
      upCentsOf simEntries ≠ 0 ∧ downCentsOf simEntries ≠ 0 ∧ ep' < sp') ∧
    ((settleRoundWith simEntries sp' ep').mode = SettleMode.REFUND ↔
      upCentsOf simEntries = 0 ∨ downCentsOf simEntries = 0 ∨ ep' = sp') := by
  have hupIff := side_empty_iff_cents_zero simEntries Dir.UP hpos
  have hdownIff := side_empty_iff_cents_zero simEntries Dir.DOWN hpos
  have L1 : ((createProcessingSettlement roundId entries sp ep treasury signer).mode
        = SettleMode.WIN ∧
      (createProcessingSettlement roundId entries sp ep treasury signer).winnerSide
        = some Dir.UP) ↔
      upLamportsOf entries ≠ 0 ∧ downLamportsOf entries ≠ 0 ∧ ep > sp := by
    constructor
    · rintro ⟨hm, hw⟩
      by_cases hd : upLamportsOf entries = 0 ∨ downLamportsOf entries = 0 ∨ ep = sp
      · have h := (cps_refund roundId treasury signer entries sp ep hd).1
        rw [hm] at h
        exact absurd h (by decide)
      · have hd' := hd
        push_neg at hd'
        by_cases hgt : ep > sp
        · exact ⟨hd'.1, hd'.2.1, hgt⟩
        · have h := (cps_win_down roundId treasury signer entries sp ep hd hgt).2
          rw [hw] at h
          exact absurd h (by decide)
    · rintro ⟨h1, h2, h3⟩
      exact cps_win_up roundId treasury signer entries sp ep
        (by push_neg; exact ⟨h1, h2, ne_of_gt h3⟩) h3
  have L2 : ((createProcessingSettlement roundId entries sp ep treasury signer).mode
        = SettleMode.WIN ∧
      (createProcessingSettlement roundId entries sp ep treasury signer).winnerSide
        = some Dir.DOWN) ↔
      upLamportsOf entries ≠ 0 ∧ downLamportsOf entries ≠ 0 ∧ ep < sp := by
    constructor
    · rintro ⟨hm, hw⟩
      by_cases hd : upLamportsOf entries = 0 ∨ downLamportsOf entries = 0 ∨ ep = sp
      · have h := (cps_refund roundId treasury signer entries sp ep hd).1
        rw [hm] at h
        exact absurd h (by decide)
      · have hd' := hd
        push_neg at hd'
        by_cases hgt : ep > sp
        · have h := (cps_win_up roundId treasury signer entries sp ep hd hgt).2
          rw [hw] at h
          exact absurd h (by decide)
        · exact ⟨hd'.1, hd'.2.1, lt_of_le_of_ne (not_lt.mp hgt) hd'.2.2⟩
    · rintro ⟨h1, h2, h3⟩
      exact cps_win_down roundId treasury signer entries sp ep
        (by push_neg; exact ⟨h1, h2, ne_of_lt h3⟩) (lt_asymm h3)
  have L3 : (createProcessingSettlement roundId entries sp ep treasury signer).mode
        = SettleMode.REFUND ↔
      upLamportsOf entries = 0 ∨ downLamportsOf entries = 0 ∨ ep = sp := by
    constructor
    · intro hm
      by_contra hd
      by_cases hgt : ep > sp
      · have h := (cps_win_up roundId treasury signer entries sp ep hd hgt).1
        rw [hm] at h
        exact absurd h (by decide)
      · have h := (cps_win_down roundId treasury signer entries sp ep hd hgt).1
        rw [hm] at h
        exact absurd h (by decide)
    · intro hd
      exact (cps_refund roundId treasury signer entries sp ep hd).1
  have L4 : (createProcessingSettlement roundId entries sp ep treasury signer).mode
        = SettleMode.WIN →
      (∃ w, (createProcessingSettlement roundId entries sp ep treasury signer).winnerSide
          = some w) ∧
        0 < upLamportsOf entries ∧ 0 < downLamportsOf entries ∧ sp ≠ ep := by
    intro hm
    by_cases hd : upLamportsOf entries = 0 ∨ downLamportsOf entries = 0 ∨ ep = sp
    · have h := (cps_refund roundId treasury signer entries sp ep hd).1
      rw [hm] at h
      exact absurd h (by decide)
    · have hd' := hd
      push_neg at hd'
      refine ⟨?_, Nat.pos_of_ne_zero hd'.1, Nat.pos_of_ne_zero hd'.2.1, hd'.2.2.symm⟩
      by_cases hgt : ep > sp
      · exact ⟨Dir.UP, (cps_win_up roundId treasury signer entries sp ep hd hgt).2⟩
      · exact ⟨Dir.DOWN, (cps_win_down roundId treasury signer entries sp ep hd hgt).2⟩
  have S1 : ((settleRoundWith simEntries sp' ep').mode = SettleMode.WIN ∧
        (settleRoundWith simEntries sp' ep').winnerSide = some Dir.UP) ↔
      upCentsOf simEntries ≠ 0 ∧ downCentsOf simEntries ≠ 0 ∧ ep' > sp' := by
    constructor
    · rintro ⟨hm, hw⟩
      by_cases hd : (simEntries.filter fun item => item.direction = Dir.UP).length = 0 ∨
          (simEntries.filter fun item => item.direction = Dir.DOWN).length = 0
      · have h := (srw_refund_sides simEntries sp' ep' hd).1
        rw [hm] at h
        exact absurd h (by decide)
      · have hd' := hd
        push_neg at hd'
        by_cases hgt : sp' < ep'
        · exact ⟨fun h => hd'.1 (hupIff.mpr h), fun h => hd'.2 (hdownIff.mpr h), hgt⟩
        · by_cases hlt : ep' < sp'
          · have h := (srw_win_down simEntries sp' ep' hd hgt hlt).2
            rw [hw] at h
            exact absurd h (by decide)
          · have h := (srw_refund_tie simEntries sp' ep' hd hgt hlt).1
            rw [hm] at h
            exact absurd h (by decide)
    · rintro ⟨h1, h2, h3⟩
      exact srw_win_up simEntries sp' ep'
        (fun hd => hd.elim (fun h => h1 (hupIff.mp h)) (fun h => h2 (hdownIff.mp h))) h3
  have S2 : ((settleRoundWith simEntries sp' ep').mode = SettleMode.WIN ∧
        (settleRoundWith simEntries sp' ep').winnerSide = some Dir.DOWN) ↔
      upCentsOf simEntries ≠ 0 ∧ downCentsOf simEntries ≠ 0 ∧ ep' < sp' := by
    constructor
    · rintro ⟨hm, hw⟩
      by_cases hd : (simEntries.filter fun item => item.direction = Dir.UP).length = 0 ∨
          (simEntries.filter fun item => item.direction = Dir.DOWN).length = 0
      · have h := (srw_refund_sides simEntries sp' ep' hd).1
        rw [hm] at h
        exact absurd h (by decide)
      · have hd' := hd
        push_neg at hd'
        by_cases hgt : sp' < ep'
        · have h := (srw_win_up simEntries sp' ep' hd hgt).2
          rw [hw] at h
          exact absurd h (by decide)
        · by_cases hlt : ep' < sp'
          · exact ⟨fun h => hd'.1 (hupIff.mpr h), fun h => hd'.2 (hdownIff.mpr h), hlt⟩
          · have h := (srw_refund_tie simEntries sp' ep' hd hgt hlt).1
            rw [hm] at h
            exact absurd h (by decide)
    · rintro ⟨h1, h2, h3⟩
      exact srw_win_down simEntries sp' ep'
        (fun hd => hd.elim (fun h => h1 (hupIff.mp h)) (fun h => h2 (hdownIff.mp h)))
        (lt_asymm h3) h3
  have S3 : (settleRoundWith simEntries sp' ep').mode = SettleMode.REFUND ↔
      upCentsOf simEntries = 0 ∨ downCentsOf simEntries = 0 ∨ ep' = sp' := by
    constructor
    · intro hm
      by_cases hd : (simEntries.filter fun item => item.direction = Dir.UP).length = 0 ∨
          (simEntries.filter fun item => item.direction = Dir.DOWN).length = 0
      · exact hd.elim (fun h => Or.inl (hupIff.mp h)) (fun h => Or.inr (Or.inl (hdownIff.mp h)))
      · by_cases hgt : sp' < ep'
        · have h := (srw_win_up simEntries sp' ep' hd hgt).1
          rw [hm] at h
          exact absurd h (by decide)
        · by_cases hlt : ep' < sp'
          · have h := (srw_win_down simEntries sp' ep' hd hgt hlt).1
            rw [hm] at h
            exact absurd h (by decide)
          · exact Or.inr (Or.inr (le_antisymm (not_lt.mp hgt) (not_lt.mp hlt)))
    · intro hd
      rcases hd with h | h | h
      · exact (srw_refund_sides simEntries sp' ep' (Or.inl (hupIff.mpr h))).1
      · exact (srw_refund_sides simEntries sp' ep' (Or.inr (hdownIff.mpr h))).1
      · by_cases hz : (simEntries.filter fun item => item.direction = Dir.UP).length = 0 ∨
            (simEntries.filter fun item => item.direction = Dir.DOWN).length = 0
        · exact (srw_refund_sides simEntries sp' ep' hz).1
        · exact (srw_refund_tie simEntries sp' ep' hz (by rw [h]; exact lt_irrefl sp')
            (by rw [h]; exact lt_irrefl sp')).1
  exact ⟨L1, L2, L3, L4, S1, S2, S3⟩

/-- Concrete entries used by the C4 witness. -/
def lamSampleEntries : List LamEntry :=
  [{ wallet := "a", direction := Dir.UP, stakeLamports := 50,
     roundStartMs := 0, roundEndMs := 360000 },
   { wallet := "b", direction := Dir.DOWN, stakeLamports := 30,
     roundStartMs := 0, roundEndMs := 360000 }]

/-- Concrete sim entries used by the C4 witness. -/
def simSampleEntries : List SimEntry :=
  [{ id := "u1", roundId := "r", market := "SOL", wallet := "w1", direction := Dir.UP,
     stakeBucks := 5, joinedAtMs := 1, roundStartMs := 0, roundEndMs := 360000 },
   { id := "d1", roundId := "r", market := "SOL", wallet := "w2", direction := Dir.DOWN,
     stakeBucks := 5, joinedAtMs := 2, roundStartMs := 0, roundEndMs := 360000 }]

/-- Witness for C4: both sides staked and the price moved up, so the
decision is WIN with winner UP. -/
theorem settleDecisionCharacterization_witness :
    (∀ e ∈ simSampleEntries, 0 < stakeCents e) ∧
    (((createProcessingSettlement "SOL-0-5m" lamSampleEntries 100 101 "T" "S").mode
          = SettleMode.WIN ∧
        (createProcessingSettlement "SOL-0-5m" lamSampleEntries 100 101 "T" "S").winnerSide
          = some Dir.UP) ↔
      upLamportsOf lamSampleEntries ≠ 0 ∧ downLamportsOf lamSampleEntries ≠ 0 ∧
        (101 : ℚ) > 100) :=
  ⟨by decide,
    (settleDecisionCharacterization "SOL-0-5m" "T" "S" lamSampleEntries 100 101
      simSampleEntries 100 101 (by decide)).1⟩

/-! ### Entry read ordering (C3)

`readSimEntriesForRoundIds` (`src/lib/sim-ledger.ts` lines 736-844) returns
the round's entries with `ORDER BY joined_at_ms DESC` in all three storage
backends, with no secondary sort key.  We model the read as a stable sort of
the stored rows by descending `joined_at_ms`. -/

/-- Descending `joined_at_ms`: the order produced by
`ORDER BY joined_at_ms DESC`. -/
def byJoinedDesc (a b : SimEntry) : Prop := b.joinedAtMs ≤ a.joinedAtMs

instance : DecidableRel byJoinedDesc := fun a b => Nat.decLe b.joinedAtMs a.joinedAtMs

instance : IsTotal SimEntry byJoinedDesc :=
  ⟨fun a b => (Nat.le_total a.joinedAtMs b.joinedAtMs).symm⟩

instance : IsTrans SimEntry byJoinedDesc :=
  ⟨fun _ _ _ hab hbc => le_trans hbc hab⟩

/-- Strictly descending `joined_at_ms`. -/
def byJoinedStrictDesc (a b : SimEntry) : Prop := b.joinedAtMs < a.joinedAtMs

instance : IsAntisymm SimEntry byJoinedStrictDesc :=
  ⟨fun _ _ h1 h2 => (lt_asymm h1 h2).elim⟩

/-- The settlement's entry read for one round: the stored rows of that round
sorted by `joined_at_ms` descending. -/
def readSimEntriesSorted (stored : List SimEntry) (roundId : String) : List SimEntry :=
  List.insertionSort byJoinedDesc (stored.filter fun e => e.roundId = roundId)

/-- A list sorted by descending key with duplicate-free keys is sorted by the
strictly descending key. -/
theorem sorted_strict_of_nodup_keys (l : List SimEntry)
    (hs : l.Sorted byJoinedDesc) (hn : (l.map SimEntry.joinedAtMs).Nodup) :
    l.Sorted byJoinedStrictDesc := by
  have hp : l.Pairwise fun a b => a.joinedAtMs ≠ b.joinedAtMs := List.pairwise_map.mp hn
  exact (hs.and hp).imp fun h => lt_of_le_of_ne h.1 (Ne.symm h.2)

/-- The payout assigned to a given entry id by a settlement snapshot. -/
def payoutOf (s : SimSnapshot) (entryId : String) : Option Nat :=
  (s.payouts.find? fun r => r.entryId = entryId).map Recip.cents

/-- **C3 (amended).** The settlement's entry read sorts the stored rows by
`joined_at_ms` DESCENDING with no tie-break, so (a) when the round's
`joined_at_ms` values are pairwise distinct, permuting the stored rows does
not change the read order nor any allocation, and (b) the recipient of the
rounding remainder — the first element of the read — is the entry with the
largest (latest) `joined_at_ms`, not the earliest. -/
theorem sortedReadCanonical (stored₁ stored₂ : List SimEntry) (rid : String) (sp ep : ℚ)
    (hperm : stored₁.Perm stored₂)
    (hnd : ((stored₁.filter fun e => e.roundId = rid).map SimEntry.joinedAtMs).Nodup) :
    readSimEntriesSorted stored₁ rid = readSimEntriesSorted stored₂ rid ∧
    settleRoundWith (readSimEntriesSorted stored₁ rid) sp ep
      = settleRoundWith (readSimEntriesSorted stored₂ rid) sp ep ∧
    (∀ e₀ rest, readSimEntriesSorted stored₁ rid = e₀ :: rest →
      ∀ e ∈ rest, e.joinedAtMs ≤ e₀.joinedAtMs) := by
  have hpf : (stored₁.filter fun e => e.roundId = rid).Perm
      (stored₂.filter fun e => e.roundId = rid) := hperm.filter _
  have hs₁ := List.sorted_insertionSort byJoinedDesc (stored₁.filter fun e => e.roundId = rid)
  have hs₂ := List.sorted_insertionSort byJoinedDesc (stored₂.filter fun e => e.roundId = rid)
  have hps : (readSimEntriesSorted stored₁ rid).Perm (readSimEntriesSorted stored₂ rid) :=
    (List.perm_insertionSort _ _).trans (hpf.trans (List.perm_insertionSort _ _).symm)
  have hn₁ : ((readSimEntriesSorted stored₁ rid).map SimEntry.joinedAtMs).Nodup :=
    (((List.perm_insertionSort byJoinedDesc
        (stored₁.filter fun e => e.roundId = rid)).map SimEntry.joinedAtMs).nodup_iff).mpr hnd
  have hn₂ : ((readSimEntriesSorted stored₂ rid).map SimEntry.joinedAtMs).Nodup :=
    ((hps.map SimEntry.joinedAtMs).nodup_iff).mp hn₁
  have heq : readSimEntriesSorted stored₁ rid = readSimEntriesSorted stored₂ rid :=
    List.eq_of_perm_of_sorted hps
      (sorted_strict_of_nodup_keys _ hs₁ hn₁)
      (sorted_strict_of_nodup_keys _ hs₂ hn₂)
  refine ⟨heq, by rw [heq], ?_⟩
  intro e₀ rest hrep e he
  have hs := hs₁
  rw [readSimEntriesSorted] at hrep
  rw [hrep] at hs
  exact (List.pairwise_cons.mp hs).1 e he

/-- Stored rows for the C3 counterexample: three UP entries joined at 1, 2, 3
and one DOWN entry joined at 4 (insertion order scrambled). -/
def c3Stored : List SimEntry :=
  [{ id := "u1", roundId := "r", market := "SOL", wallet := "w1", direction := Dir.UP,
     stakeBucks := 5, joinedAtMs := 1, roundStartMs := 0, roundEndMs := 360000 },
   { id := "d1", roundId := "r", market := "SOL", wallet := "w4", direction := Dir.DOWN,
     stakeBucks := 5, joinedAtMs := 4, roundStartMs := 0, roundEndMs := 360000 },
   { id := "u2", roundId := "r", market := "SOL", wallet := "w2", direction := Dir.UP,
     stakeBucks := 5, joinedAtMs := 2, roundStartMs := 0, roundEndMs := 360000 },
   { id := "u3", roundId := "r", market := "SOL", wallet := "w3", direction := Dir.UP,
     stakeBucks := 5, joinedAtMs := 3, roundStartMs := 0, roundEndMs := 360000 }]

/-- **C3 (counterexample).** With winners `u1, u2, u3` (joined at 1, 2, 3,
equal stakes) and a WIN round with distributable 1880 over weight 1500, the
remainder of 2 cents goes to `u3` — the entry read is descending
`joined_at_ms`, so the *latest* joiner is first and receives `626 + 2 = 628`
while the earliest joiner `u1` receives only the floor share 626.  The claim
predicts the remainder goes to `u1` under ascending order. -/
theorem remainderGoesToLatestJoiner :
    payoutOf (settleRoundWith (readSimEntriesSorted c3Stored "r") 100 101) "u1"
      = some 626 ∧
    payoutOf (settleRoundWith (readSimEntriesSorted c3Stored "r") 100 101) "u3"
      = some 628 ∧
    (readSimEntriesSorted c3Stored "r").map SimEntry.id = ["d1", "u3", "u2", "u1"] := by
  refine ⟨?_, ?_, ?_⟩ <;> rfl

/-- Permuted stored rows for the C3 witness. -/
def c3WitnessA : List SimEntry :=
  [{ id := "a", roundId := "r", market := "SOL", wallet := "wa", direction := Dir.UP,
     stakeBucks := 5, joinedAtMs := 10, roundStartMs := 0, roundEndMs := 360000 },
   { id := "b", roundId := "r", market := "SOL", wallet := "wb", direction := Dir.DOWN,
     stakeBucks := 5, joinedAtMs := 20, roundStartMs := 0, roundEndMs := 360000 }]

/-- The same stored rows in the opposite insertion order. -/
def c3WitnessB : List SimEntry :=
  [{ id := "b", roundId := "r", market := "SOL", wallet := "wb", direction := Dir.DOWN,
     stakeBucks := 5, joinedAtMs := 20, roundStartMs := 0, roundEndMs := 360000 },
   { id := "a", roundId := "r", market := "SOL", wallet := "wa", direction := Dir.UP,
     stakeBucks := 5, joinedAtMs := 10, roundStartMs := 0, roundEndMs := 360000 }]

/-- Witness for the amended C3 at a concrete permuted pair of stores. -/
theorem sortedReadCanonical_witness :
    (c3WitnessA.Perm c3WitnessB ∧
      ((c3WitnessA.filter fun e => e.roundId = "r").map SimEntry.joinedAtMs).Nodup) ∧
    readSimEntriesSorted c3WitnessA "r" = readSimEntriesSorted c3WitnessB "r" :=
  ⟨⟨List.Perm.swap _ _ _, by decide⟩,
    (sortedReadCanonical c3WitnessA c3WitnessB "r" 100 101
      (List.Perm.swap _ _ _) (by decide)).1⟩

/-! ### Oracle fallback (C7)

`fetchOracleSnapshotAtTimestamp` and `fetchOracleSnapshot` are external I/O
(`src/lib/oracle` wraps Pyth Hermes).  They are modelled as an environment:
`atTs t` is the historical snapshot endpoint at unix second `t` (`none` when
the fetch throws) and `latest` is the live latest-price endpoint. -/

structure OracleEnv where
  atTs : Nat → Option ℚ
  latest : Option ℚ

/-- The offsets tried by `fetchSnapshotNearTimestamp` (±10 s budget). -/
def snapshotOffsets : List Int := [0, -1, -2, -5, -10, 1, 2, 5, 10]

/-- `fetchSnapshotNearTimestamp` (`src/lib/sim-settlement.ts` lines 58-69):
try the historical endpoint at each offset (clamped at 0), and fall back to
the live snapshot `fetchOracleSnapshot` when every offset fails. -/
def fetchSnapshotNearTimestamp (o : OracleEnv) (unixTimestampSec : Nat) : Option ℚ :=
  match snapshotOffsets.findSome? (fun offset => o.atTs ((unixTimestampSec : Int) + offset).toNat) with
  | some p => some p
  | none => o.latest

/-- `Math.floor((roundStartMs + 60_000) / 1000)` with the `?? Date.now()`
default for an empty entry list. -/
def lockTimestampSec (nowMs : Nat) (entries : List SimEntry) : Nat :=
  (((entries.head?.map SimEntry.roundStartMs).getD nowMs) + 60000) / 1000

/-- `Math.floor(roundEndMs / 1000)` with the `?? Date.now()` default. -/
def roundEndSec (nowMs : Nat) (entries : List SimEntry) : Nat :=
  ((entries.head?.map SimEntry.roundEndMs).getD nowMs) / 1000

/-- `settleRound`: fetch both snapshots (a failed fetch propagates as a
thrown error, i.e. `none`) and settle on the fetched prices. -/
def settleRoundModel (o : OracleEnv) (nowMs : Nat) (entries : List SimEntry) :
    Option SimSnapshot :=
  match fetchSnapshotNearTimestamp o (lockTimestampSec nowMs entries),
        fetchSnapshotNearTimestamp o (roundEndSec nowMs entries) with
  | some sp, some ep => some (settleRoundWith entries sp ep)
  | _, _ => none

/-- `buildRefundSettlement` (lines 136-155): zero fee, zero prices, pro-rata
refund of the full pool. -/
def buildRefundSettlement (entries : List SimEntry) : SimSnapshot :=
  let totalCents := (entries.map stakeCents).sum
  let feeCents := 0
  let distributableCents := totalCents - feeCents
  { mode := SettleMode.REFUND
    winnerSide := none
    startPrice := 0
    endPrice := 0
    payouts := proRataCents (entries.map fun item => { entryId := item.id, cents := stakeCents item })
      distributableCents totalCents
    feeCents := feeCents }

/-- `settleRoundSafe` (lines 171-177): any settlement error falls back to the
refund settlement. -/
def settleRoundSafe (o : OracleEnv) (nowMs : Nat) (entries : List SimEntry) : SimSnapshot :=
  (settleRoundModel o nowMs entries).getD (buildRefundSettlement entries)

/-- Oracle for the C7 counterexample: historical data exists only at second
60 (price 100); the live endpoint serves price 101. -/
def c7Oracle : OracleEnv :=
  { atTs := fun t => if t = 60 then some 100 else none
    latest := some 101 }

/-- Entries for the C7 counterexample and witness: both sides staked. -/
def c7Entries : List SimEntry :=
  [{ id := "a", roundId := "r", market := "SOL", wallet := "wa", direction := Dir.UP,
     stakeBucks := 5, joinedAtMs := 1, roundStartMs := 0, roundEndMs := 360000 },
   { id := "b", roundId := "r", market := "SOL", wallet := "wb", direction := Dir.DOWN,
     stakeBucks := 5, joinedAtMs := 2, roundStartMs := 0, roundEndMs := 360000 }]

/-- **C7 (counterexample).** The end-snapshot search at second 360 fails at
every offset of the ±10 s budget, yet the round does NOT settle as REFUND:
`fetchSnapshotNearTimestamp` falls back to the live latest price (101), and
the round settles WIN/UP from that other price source. -/
theorem liveFallbackSettlesWin :
    (∀ offset ∈ snapshotOffsets, c7Oracle.atTs ((360 : Int) + offset).toNat = none) ∧
    fetchSnapshotNearTimestamp c7Oracle 360 = some 101 ∧
    (settleRoundSafe c7Oracle 0 c7Entries).mode = SettleMode.WIN ∧
    (settleRoundSafe c7Oracle 0 c7Entries).winnerSide = some Dir.UP ∧
    (settleRoundSafe c7Oracle 0 c7Entries).endPrice = 101 := by
  refine ⟨by decide, rfl, rfl, rfl, rfl⟩

/-- **C7 (amended).** When a snapshot cannot be retrieved within the ±10 s
nearest-timestamp budget, `fetchSnapshotNearTimestamp` first falls back to
the live latest snapshot; only when that also fails (the fetch for either
endpoint returns nothing) does the round settle as REFUND, with zeros for
both prices and zero fee. -/
theorem refundWhenOracleUnavailable (o : OracleEnv) (nowMs : Nat) (entries : List SimEntry)
    (h : fetchSnapshotNearTimestamp o (lockTimestampSec nowMs entries) = none ∨
      fetchSnapshotNearTimestamp o (roundEndSec nowMs entries) = none) :
    settleRoundSafe o nowMs entries = buildRefundSettlement entries ∧
    (settleRoundSafe o nowMs entries).mode = SettleMode.REFUND ∧
    (settleRoundSafe o nowMs entries).startPrice = 0 ∧
    (settleRoundSafe o nowMs entries).endPrice = 0 ∧
    (settleRoundSafe o nowMs entries).feeCents = 0 := by
  have hm : settleRoundModel o nowMs entries = none := by
    rcases hc1 : fetchSnapshotNearTimestamp o (lockTimestampSec nowMs entries) with _ | sp <;>
      rcases hc2 : fetchSnapshotNearTimestamp o (roundEndSec nowMs entries) with _ | ep <;>
      simp_all [settleRoundModel, hc1, hc2]
  rw [settleRoundSafe, hm]
  exact ⟨rfl, rfl, rfl, rfl, rfl⟩

/-- Oracle with no data at all, for the C7 witness. -/
def c7DeadOracle : OracleEnv := { atTs := fun _ => none, latest := none }

/-- Witness for the amended C7: with a fully unavailable oracle the round
settles as REFUND with zero prices and zero fee. -/
theorem refundWhenOracleUnavailable_witness :
    (fetchSnapshotNearTimestamp c7DeadOracle (lockTimestampSec 0 c7Entries) = none ∨
      fetchSnapshotNearTimestamp c7DeadOracle (roundEndSec 0 c7Entries) = none) ∧
    settleRoundSafe c7DeadOracle 0 c7Entries = buildRefundSettlement c7Entries :=
  ⟨Or.inl (by decide),
    (refundWhenOracleUnavailable c7DeadOracle 0 c7Entries (Or.inl (by decide))).1⟩

/-! ### Transfer receipts (C5)

File-backend branch of `appendSettlementTransfer` in the round ledger: a
receipt append is skipped when the transfer id is truthy and already
recorded, or when the signature is already recorded.  JS truthiness makes
the empty-string id skip the id check. -/

structure TransferRecord where
  id : Option String
  wallet : String
  lamports : Nat
  signature : String
deriving DecidableEq, Repr

/-- The persisted fields of a settlement used by receipt handling. -/
structure SettlementRec where
  roundId : String
  plannedTransfers : List PlannedTransfer
  transfers : List TransferRecord
deriving DecidableEq, Repr

/-- JS truthiness of `transfer.id` (optional string): `undefined` and `""`
are falsy. -/
def idTruthy : Option String → Bool
  | some s => s ≠ ""
  | none => false

/-- Receipt append on one settlement row (the body of the file-backend
`appendSettlementTransfer` once the settlement is found). -/
def appendTransferToSettlement (s : SettlementRec) (t : TransferRecord) : SettlementRec :=
  if idTruthy t.id ∧ s.transfers.any fun item => item.id = t.id then s
  else if s.transfers.any fun item => item.signature = t.signature then s
  else { s with transfers := s.transfers ++ [t] }

/-- `appendSettlementTransfer(roundId, transfer)`: find the settlement with
the given round id (first match) and append the receipt to it; a missing
settlement is a silent no-op. -/
def appendSettlementTransfer :
    List SettlementRec → String → TransferRecord → List SettlementRec
  | [], _, _ => []
  | s :: rest, roundId, t =>
      if s.roundId = roundId then appendTransferToSettlement s t :: rest
      else s :: appendSettlementTransfer rest roundId t

/-- Number of receipts of a settlement carrying a given transfer id. -/
def receiptCount (s : SettlementRec) (tid : String) : Nat :=
  (s.transfers.filter fun item => item.id = some tid).length

/-- At most one receipt per nonempty transfer id. -/
def oneReceiptPerId (s : SettlementRec) : Prop :=
  ∀ tid : String, tid ≠ "" → receiptCount s tid ≤ 1

/-- The planned transfers a resumed `settleDueRounds` run would still send:
the loop skips a planned transfer when a receipt with its id exists
(`alreadySent`). -/
def transfersToSend (s : SettlementRec) : List PlannedTransfer :=
  s.plannedTransfers.filter fun transfer =>
    ¬ s.transfers.any fun item => item.id = some transfer.id

/-- **C5 (counterexample).** Receipts with the empty-string transfer id are
falsy in JS, so the id-uniqueness check is skipped: re-appending a receipt
for the pair `("R", "")` with a fresh signature is NOT a no-op and leaves
two receipts with the same `(round_id, transfer_id)` pair. -/
theorem duplicateEmptyIdReceipt :
    appendSettlementTransfer
        [{ roundId := "R", plannedTransfers := [],
           transfers := [{ id := some "", wallet := "w1", lamports := 5, signature := "s1" }] }]
        "R" { id := some "", wallet := "w2", lamports := 7, signature := "s2" }
      = [{ roundId := "R", plannedTransfers := [],
           transfers := [{ id := some "", wallet := "w1", lamports := 5, signature := "s1" },
                         { id := some "", wallet := "w2", lamports := 7, signature := "s2" }] }] ∧
    receiptCount
        { roundId := "R", plannedTransfers := [],
          transfers := [{ id := some "", wallet := "w1", lamports := 5, signature := "s1" },
                        { id := some "", wallet := "w2", lamports := 7, signature := "s2" }] }
        "" = 2 ∧
    appendSettlementTransfer
        [{ roundId := "R", plannedTransfers := [],
           transfers := [{ id := some "", wallet := "w1", lamports := 5, signature := "s1" }] }]
        "R" { id := some "", wallet := "w2", lamports := 7, signature := "s2" }
      ≠ [{ roundId := "R", plannedTransfers := [],
           transfers := [{ id := some "", wallet := "w1", lamports := 5, signature := "s1" }] }] := by
  refine ⟨rfl, rfl, by decide⟩

/-- Appending a receipt with a nonempty transfer id preserves the
one-receipt-per-id invariant on a settlement row. -/
theorem appendTransfer_preserves (s : SettlementRec) (t : TransferRecord) (tid : String)
    (hid : t.id = some tid) (hne : tid ≠ "") (hs : oneReceiptPerId s) :
    oneReceiptPerId (appendTransferToSettlement s t) := by
  have htr : idTruthy t.id = true := by rw [hid]; simp [idTruthy, hne]
  by_cases hc1 : idTruthy t.id ∧ s.transfers.any fun item => item.id = t.id
  · rw [appendTransferToSettlement, if_pos hc1]
    exact hs
  · by_cases hc2 : (s.transfers.any fun item => item.signature = t.signature) = true
    · rw [appendTransferToSettlement, if_neg hc1, if_pos hc2]
      exact hs
    · rw [appendTransferToSettlement, if_neg hc1, if_neg hc2]
      have hall : ∀ item ∈ s.transfers, item.id ≠ t.id := by
        have hany : ¬ ((s.transfers.any fun item => item.id = t.id) = true) :=
          fun hb => hc1 ⟨htr, hb⟩
        simpa [List.any_eq_true] using hany
      intro tid' hne'
      have hsplit : receiptCount { s with transfers := s.transfers ++ [t] } tid'
          = (s.transfers.filter fun item => item.id = some tid').length
            + (([t] : List TransferRecord).filter fun item => item.id = some tid').length := by
        rw [receiptCount]
        simp [List.filter_append]
      rw [hsplit]
      by_cases htid : tid' = tid
      · subst htid
        have h0 : (s.transfers.filter fun item => item.id = some tid').length = 0 := by
          rw [List.length_eq_zero, List.filter_eq_nil_iff]
          intro item hitem
          simp only [decide_eq_true_eq]
          rw [← hid]
          exact hall item hitem
        have h1 : (([t] : List TransferRecord).filter
            fun item => item.id = some tid').length ≤ 1 :=
          le_trans (List.length_filter_le _ _) (by simp)
        omega
      · have h1 : (([t] : List TransferRecord).filter
            fun item => item.id = some tid').length = 0 := by
          simp [List.filter, hid, Ne.symm htid]
        have h2 := hs tid' hne'
        rw [receiptCount] at h2
        omega

/-- The invariant is preserved across the settlement list by
`appendSettlementTransfer` (only the first matching round row changes). -/
theorem appendSettlementTransfer_preserves (settlements : List SettlementRec)
    (rid : String) (t : TransferRecord) (tid : String)
    (hid : t.id = some tid) (hne : tid ≠ "")
    (hinv : ∀ s ∈ settlements, oneReceiptPerId s) :
    ∀ s' ∈ appendSettlementTransfer settlements rid t, oneReceiptPerId s' := by
  induction settlements with
  | nil =>
      intro s' hs'
      simp [appendSettlementTransfer] at hs'
  | cons s rest ih =>
      intro s' hs'
      rw [appendSettlementTransfer] at hs'
      by_cases hr : s.roundId = rid
      · rw [if_pos hr] at hs'
        rcases List.mem_cons.mp hs' with h | h
        · subst h
          exact appendTransfer_preserves s t tid hid hne (hinv s (List.mem_cons_self s rest))
        · exact hinv s' (List.mem_cons_of_mem s h)
      · rw [if_neg hr] at hs'
        rcases List.mem_cons.mp hs' with h | h
        · subst h
          exact hinv s' (List.mem_cons_self s' rest)
        · exact ih (fun x hx => hinv x (List.mem_cons_of_mem s hx)) s' h

/-- **C5 (amended).** For receipts with a NONEMPTY transfer id (every id the
settlement engine generates is `fee-0` / `payout-N`): re-appending a receipt
whose transfer id or signature is already recorded is a silent no-op, the
at-most-one-receipt-per-`(round_id, transfer_id)` invariant is preserved by
appends, and a resumed settlement run skips (never re-sends) any planned
transfer that already has a receipt.  (For the empty-string id the
uniqueness check is skipped — see the counterexample.) -/
theorem receiptIdempotence (settlements : List SettlementRec) (rid : String)
    (t : TransferRecord) (tid : String) (hid : t.id = some tid) (hne : tid ≠ "") :
    (∀ s : SettlementRec, (s.transfers.any fun item => item.id = t.id) = true →
      appendTransferToSettlement s t = s) ∧
    (∀ s : SettlementRec, (s.transfers.any fun item => item.signature = t.signature) = true →
      appendTransferToSettlement s t = s) ∧
    ((∀ s ∈ settlements, oneReceiptPerId s) →
      ∀ s' ∈ appendSettlementTransfer settlements rid t, oneReceiptPerId s') ∧
    (∀ (s : SettlementRec) (p : PlannedTransfer), p ∈ s.plannedTransfers →
      (s.transfers.any fun item => item.id = some p.id) = true →
      p ∉ transfersToSend s) := by
  have htr : idTruthy t.id = true := by rw [hid]; simp [idTruthy, hne]
  refine ⟨?_, ?_, ?_, ?_⟩
  · intro s hany
    rw [appendTransferToSettlement, if_pos ⟨htr, hany⟩]
  · intro s hsig
    by_cases hc1 : idTruthy t.id ∧ s.transfers.any fun item => item.id = t.id
    · rw [appendTransferToSettlement, if_pos hc1]
    · rw [appendTransferToSettlement, if_neg hc1, if_pos hsig]
  · exact appendSettlementTransfer_preserves settlements rid t tid hid hne
  · intro s p _ hany hmem
    have hp := (List.mem_filter.mp hmem).2
    simp only [decide_eq_true_eq] at hp
    exact hp hany

/-- Settlement row for the C5 witness: one receipt with id `payout-0`. -/
def c5WitnessSettlement : SettlementRec :=
  { roundId := "R"
    plannedTransfers := [{ id := "payout-0", wallet := "wa", lamports := 38, kind := "payout" }]
    transfers := [{ id := some "payout-0", wallet := "wa", lamports := 38, signature := "sA" }] }

/-- Witness for the amended C5: re-appending the `payout-0` receipt with a
fresh signature is a no-op. -/
theorem receiptIdempotence_witness :
    ((some "payout-0" : Option String) = some "payout-0" ∧ "payout-0" ≠ "") ∧
    appendTransferToSettlement c5WitnessSettlement
        { id := some "payout-0", wallet := "wa", lamports := 38, signature := "sB" }
      = c5WitnessSettlement :=
  ⟨⟨rfl, by decide⟩,
    (receiptIdempotence [c5WitnessSettlement] "R"
        { id := some "payout-0", wallet := "wa", lamports := 38, signature := "sB" }
        "payout-0" rfl (by decide)).1 c5WitnessSettlement (by decide)⟩

/-! ### Round processing lock (C6)

The Postgres branch of `tryAcquireRoundProcessingLock`: insert the lock row,
or steal it only when the current holder is older than `staleAfterMs`.
(The no-database fallback keeps no lock state at all and relies on
in-process serialization.)  The lock state for one round is `none` or
`some acquiredAtMs`. -/

/-- `tryAcquireRoundProcessingLock(roundId, staleAfterMs = 15min)`: returns
whether the lock was acquired, together with the new lock row. -/
def tryAcquireRoundProcessingLock (lockRow : Option Nat) (now staleAfterMs : Nat) :
    Bool × Option Nat :=
  let staleBefore := now - max 1 staleAfterMs
  match lockRow with
  | none => (true, some now)
  | some acquiredAt =>
      if acquiredAt < staleBefore then (true, some now) else (false, some acquiredAt)

/-- **C6.** `try_acquire_round_lock` returns `true` only when no holder
exists or the holder is older than `stale_after`; while a fresh holder
exists every acquisition attempt returns `false` and leaves the holder
unchanged — so at most one settlement attempt per round is in flight. -/
theorem roundLockExclusive (lockRow : Option Nat) (now staleAfterMs : Nat)
    (hstale : 1 ≤ staleAfterMs) :
    ((tryAcquireRoundProcessingLock lockRow now staleAfterMs).1 = true →
      lockRow = none ∨
        ∃ acquiredAt, lockRow = some acquiredAt ∧ acquiredAt < now - staleAfterMs) ∧
    (∀ acquiredAt, lockRow = some acquiredAt → now - staleAfterMs ≤ acquiredAt →
      (tryAcquireRoundProcessingLock lockRow now staleAfterMs).1 = false ∧
      (tryAcquireRoundProcessingLock lockRow now staleAfterMs).2 = lockRow) := by
  have hmax : max 1 staleAfterMs = staleAfterMs := Nat.max_eq_right hstale
  cases lockRow with
  | none =>
      refine ⟨fun _ => Or.inl rfl, ?_⟩
      intro acquiredAt h
      exact absurd h (by simp)
  | some acquiredAt =>
      constructor
      · intro hacq
        rw [tryAcquireRoundProcessingLock] at hacq
        simp only [hmax] at hacq
        right
        refine ⟨acquiredAt, rfl, ?_⟩
        by_contra hfresh
        rw [if_neg (by omega)] at hacq
        exact absurd hacq (by simp)
      · intro a ha hfresh
        have haeq : a = acquiredAt := by
          injection ha with h
          exact h.symm
        subst haeq
        rw [tryAcquireRoundProcessingLock]
        simp only [hmax]
        rw [if_neg (by omega)]
        exact ⟨rfl, rfl⟩

/-- Witness for C6: a holder acquired at 1000 is fresh at `now = 1500` with a
15-minute TTL, so the acquisition attempt fails and the holder survives. -/
theorem roundLockExclusive_witness :
    (1 ≤ 900000 ∧ 1500 - 900000 ≤ 1000) ∧
    (tryAcquireRoundProcessingLock (some 1000) 1500 900000).1 = false ∧
    (tryAcquireRoundProcessingLock (some 1000) 1500 900000).2 = some 1000 :=
  ⟨⟨by decide, by decide⟩,
    (roundLockExclusive (some 1000) 1500 900000 (by decide)).2 1000 rfl (by decide)⟩

/-! ### Once-only sim settlement (C10) -/

/-- The sim ledger state seen by `settleSimRoundOnce`: stored entries plus
persisted per-round settlement records. -/
structure SimState where
  entries : List SimEntry
  settlements : List (String × SimSnapshot)
deriving Repr

/-- `readSimRoundSettlement`. -/
def readSimRoundSettlement (st : SimState) (roundId : String) : Option SimSnapshot :=
  (st.settlements.find? fun p => p.1 = roundId).map Prod.snd

/-- `writeSimRoundSettlement`. -/
def writeSimRoundSettlement (st : SimState) (roundId : String) (s : SimSnapshot) : SimState :=
  { st with settlements := (roundId, s) :: st.settlements }

/-- `settleSimRoundOnce` (lines 179-217), sequentialized: return the
persisted settlement when one exists; otherwise read the round's entries,
return `null` when there are none, and only otherwise settle and persist.
(The in-flight promise de-duplication and the post-write canonical re-read
are concurrency plumbing with no effect on this sequential run.) -/
def settleSimRoundOnce (o : OracleEnv) (nowMs : Nat) (st : SimState) (roundId : String) :
    Option SimSnapshot × SimState :=
  match readSimRoundSettlement st roundId with
  | some existing => (some existing, st)
  | none =>
      let fullRoundEntries := readSimEntriesSorted st.entries roundId
      if fullRoundEntries = [] then (none, st)
      else
        let settled := settleRoundSafe o nowMs fullRoundEntries
        (some settled, writeSimRoundSettlement st roundId settled)

/-- **C10.** For a round with no entries in the ledger (and no previously
persisted settlement), `settleSimRoundOnce` returns `null` and leaves the
state untouched — no settlement record is persisted, so a round is settled
only after at least one entry exists. -/
theorem noEntriesNoSettlement (o : OracleEnv) (nowMs : Nat) (st : SimState) (roundId : String)
    (hnone : readSimRoundSettlement st roundId = none)
    (hempty : st.entries.filter (fun e => e.roundId = roundId) = []) :
    settleSimRoundOnce o nowMs st roundId = (none, st) := by
  have hread : readSimEntriesSorted st.entries roundId = [] := by
    rw [readSimEntriesSorted, hempty]
    rfl
  rw [settleSimRoundOnce, hnone]
  simp [hread]

/-- Witness for C10 at the empty ledger state. -/
theorem noEntriesNoSettlement_witness :
    (readSimRoundSettlement { entries := [], settlements := [] } "r" = none ∧
      (List.filter (fun e => e.roundId = "r") ([] : List SimEntry)) = []) ∧
    settleSimRoundOnce c7DeadOracle 0 { entries := [], settlements := [] } "r"
      = (none, { entries := [], settlements := [] }) :=
  ⟨⟨rfl, rfl⟩,
    noEntriesNoSettlement c7DeadOracle 0 { entries := [], settlements := [] } "r" rfl rfl⟩

/-! ### JoinHandler (`POST /api/entries`, C8 and C9)

Timestamps are milliseconds as `Int` (JS numbers; the payload is
client-controlled).  `Number.isFinite`/`Number.isInteger` checks hold by
typing.  The Solana RPC is `chain : String → Option ParsedTx`; `new
PublicKey(wallet)` succeeding is `pubkeyValid wallet`. -/

/-- The JSON body of `POST /api/entries`. -/
structure JoinBody where
  roundId : String
  market : String
  feedId : String
  wallet : String
  direction : String
  signature : String
  roundStartMs : Int
  roundEndMs : Int
  stakeUsd : Nat
  stakeLamports : Int
  joinedAtMs : Int
  startPrice : ℚ
deriving DecidableEq, Repr

/-- A parsed system-program transfer instruction. -/
structure TxTransfer where
  source : String
  destination : String
  lamports : Int
deriving DecidableEq, Repr

/-- A parsed confirmed transaction as returned by `getParsedTransaction`. -/
structure ParsedTx where
  err : Bool
  blockTime : Option Int
  transfers : List TxTransfer
  memos : List String
deriving DecidableEq, Repr

/-- A stored ledger entry row (`LedgerEntry` of the round ledger). -/
structure RouteEntry where
  roundId : String
  market : String
  feedId : String
  wallet : String
  direction : String
  signature : String
  roundStartMs : Int
  roundEndMs : Int
  stakeUsd : Nat
  stakeLamports : Int
  joinedAtMs : Int
  startPrice : ℚ
  clientIp : Option String
deriving DecidableEq, Repr

/-- In-memory rolling join-attempt store: per-wallet and per-ip timestamp
lists (`inMemoryWalletJoinAttempts` / `inMemoryIpJoinAttempts`). -/
structure RLState where
  walletAttempts : List (String × List Int)
  ipAttempts : List (String × List Int)
deriving DecidableEq, Repr

/-- Ledger state touched by the join handler: entry rows plus the
join-attempt counters. -/
structure RouteState where
  entries : List RouteEntry
  rl : RLState
deriving DecidableEq, Repr

/-- The handler's response, by status: 503 paused/disabled, 400 validation,
429 rate-limited, 200 with `created:false` (replay), 200 with
`created:true`. -/
inductive JoinOutcome where
  | unavailable : JoinOutcome
  | badRequest : JoinOutcome
  | rateLimited : JoinOutcome
  | okReplay : JoinOutcome
  | okCreated : JoinOutcome
deriving DecidableEq, Repr

/-- JS `Map.get(k) ?? []`. -/
def attemptsGet (m : List (String × List Int)) (k : String) : List Int :=
  ((m.find? fun p => p.1 = k).map Prod.snd).getD []

/-- JS `Map.set(k, v)`: update in place, or append a new key. -/
def attemptsSet (m : List (String × List Int)) (k : String) (v : List Int) :
    List (String × List Int) :=
  if m.any fun p => p.1 = k then m.map fun p => if p.1 = k then (k, v) else p
  else m ++ [(k, v)]

/-- `recordJoinAttempt(wallet, ip)` (in-memory branch): append `now` to the
wallet bucket, and to the ip bucket when an ip is present. -/
def recordJoinAttempt (rl : RLState) (wallet : String) (ip : Option String)
    (nowMs : Int) : RLState :=
  { walletAttempts :=
      attemptsSet rl.walletAttempts wallet (attemptsGet rl.walletAttempts wallet ++ [nowMs])
    ipAttempts :=
      match ip with
      | some i => attemptsSet rl.ipAttempts i (attemptsGet rl.ipAttempts i ++ [nowMs])
      | none => rl.ipAttempts }

/-- Result of `countRecentJoinAttempts`, with the pruned store. -/
structure RateCheck where
  walletCount : Nat
  ipCount : Nat
  rl : RLState
deriving DecidableEq, Repr

/-- `countRecentJoinAttempts` (in-memory branch): prune each bucket to the
window and count what remains. -/
def countRecentJoinAttempts (rl : RLState) (wallet : String) (ip : Option String)
    (windowSeconds : Nat) (nowMs : Int) : RateCheck :=
  let windowMs : Int := ((max 1 windowSeconds : Nat) : Int) * 1000
  let cutoff := nowMs - windowMs
  let walletTimes := (attemptsGet rl.walletAttempts wallet).filter fun ts => cutoff ≤ ts
  let rl₁ : RLState := { rl with walletAttempts := attemptsSet rl.walletAttempts wallet walletTimes }
  match ip with
  | some i =>
      let ipTimes := (attemptsGet rl₁.ipAttempts i).filter fun ts => cutoff ≤ ts
      { walletCount := walletTimes.length
        ipCount := ipTimes.length
        rl := { rl₁ with ipAttempts := attemptsSet rl₁.ipAttempts i ipTimes } }
  | none => { walletCount := walletTimes.length, ipCount := 0, rl := rl₁ }

/-- The market keys accepted by the handler (`MARKET_CONFIGS`). -/
def allowedMarkets : List String := ["SOL", "BTC", "ETH", "XRP", "PEPE", "BONK"]

/-- `ALLOWED_STAKES`. -/
def allowedStakes : List Nat := [5, 10, 25, 50, 100, 250]

/-- `marketKey.toUpperCase()` (ASCII market keys). -/
def jsToUpper (s : String) : String := String.mk (s.data.map Char.toUpper)

/-- `resolveMarketByKey(key).feedId`: uppercase lookup over `MARKET_CONFIGS`
with the SOL market as default. -/
def resolveMarketFeedByKey (key : String) : String :=
  if jsToUpper key = "SOL" then "ef0d8b6fda2ceba41da15d4095d1da392a0d2f8ed0c6c7bc0f4cfac8c280b56d"
  else if jsToUpper key = "BTC" then "e62df6c8b4a85fe1a67db44dc12de5db330f7ac66b72dc658afedf0f4a415b43"
  else if jsToUpper key = "ETH" then "ff61491a931112ddf1bd8147cd1b641375f79f5825126d665480874634fd0ace"
  else if jsToUpper key = "XRP" then "ec5d399846a9209f3fe5881d70aae9268c94339ff9817e8d18ff19fa05eea1c8"
  else if jsToUpper key = "PEPE" then "7f3febb69d47fd18c6e29697fc2c19ee70b9877111410238d8587f2cffacb232"
  else if jsToUpper key = "BONK" then "72b021217ca3fe68922a19aaf990109cb9d84e9ad004b4d2025ad6f529314419"
  else "ef0d8b6fda2ceba41da15d4095d1da392a0d2f8ed0c6c7bc0f4cfac8c280b56d"

/-- `"{market}-{floor(roundStartMs/1000)}-5m"`. -/
def expectedRoundId (body : JoinBody) : String :=
  body.market ++ "-" ++ toString (body.roundStartMs.fdiv 1000) ++ "-5m"

/-- `"PANCHO|{market}|{roundId}|{direction}|{stakeUsd}"`. -/
def expectedMemo (body : JoinBody) : String :=
  "PANCHO|" ++ body.market ++ "|" ++ body.roundId ++ "|" ++ body.direction ++ "|"
    ++ toString body.stakeUsd

/-- The entry row the handler inserts: note `joinedAtMs` is
`body.joinedAtMs || Date.now()` — the client value whenever truthy (nonzero),
server time only as fallback. -/
def entryFromBody (body : JoinBody) (clientIp : Option String) (nowMs : Int) : RouteEntry :=
  { roundId := body.roundId
    market := body.market
    feedId := body.feedId
    wallet := body.wallet
    direction := body.direction
    signature := body.signature
    roundStartMs := body.roundStartMs
    roundEndMs := body.roundEndMs
    stakeUsd := body.stakeUsd
    stakeLamports := body.stakeLamports
    joinedAtMs := if body.joinedAtMs ≠ 0 then body.joinedAtMs else nowMs
    startPrice := 0
    clientIp := clientIp }

/-- The `POST /api/entries` handler (`src/app/api/entries/route.ts`), as a
function of the request, the chain view, the ambient clock, and the ledger
state.  Guards appear in source order; all 400 paths collapse to
`badRequest`. -/
def postEntries (prodOffchainDisabled : Bool) (escrowAddress : String)
    (pubkeyValid : String → Bool) (chain : String → Option ParsedTx)
    (clientIp : Option String) (nowMs : Int) (body : JoinBody) (st : RouteState) :
    JoinOutcome × RouteState :=
  if prodOffchainDisabled then (JoinOutcome.unavailable, st)
  else if body.roundId = "" ∨ body.market = "" ∨ body.feedId = "" ∨ body.wallet = ""
      ∨ body.direction = "" ∨ body.signature = "" then (JoinOutcome.badRequest, st)
  else if ¬(body.direction = "UP" ∨ body.direction = "DOWN") then (JoinOutcome.badRequest, st)
  else if ¬(body.market ∈ allowedMarkets) then (JoinOutcome.badRequest, st)
  else if ¬(body.stakeUsd ∈ allowedStakes) then (JoinOutcome.badRequest, st)
  else if body.stakeUsd < 1 ∨ body.stakeUsd > 5000 ∨ body.stakeLamports ≤ 0
      ∨ body.stakeLamports > 25000000000 then (JoinOutcome.badRequest, st)
  else if body.roundId ≠ expectedRoundId body then (JoinOutcome.badRequest, st)
  else if body.roundStartMs % 120000 ≠ 0 then (JoinOutcome.badRequest, st)
  else if body.roundEndMs ≠ body.roundStartMs + 360000 then (JoinOutcome.badRequest, st)
  else if ¬ pubkeyValid body.wallet then (JoinOutcome.badRequest, st)
  else
    let rl₁ := recordJoinAttempt st.rl body.wallet clientIp nowMs
    let rate := countRecentJoinAttempts rl₁ body.wallet clientIp 60 nowMs
    let st₁ : RouteState := { st with rl := rate.rl }
    if rate.walletCount > 12 ∨ rate.ipCount > 30 then (JoinOutcome.rateLimited, st₁)
    else if st.entries.any fun e => e.signature = body.signature then
      (JoinOutcome.okReplay, st₁)
    else if resolveMarketFeedByKey body.market ≠ body.feedId then (JoinOutcome.badRequest, st₁)
    else
      match chain body.signature with
      | none => (JoinOutcome.badRequest, st₁)
      | some tx =>
          if tx.err then (JoinOutcome.badRequest, st₁)
          else
            match tx.blockTime with
            | none => (JoinOutcome.badRequest, st₁)
            | some blockTime =>
                let txMs := blockTime * 1000
                let lockMs := body.roundStartMs + 60000
                if txMs < body.roundStartMs ∨ txMs ≥ lockMs then
                  (JoinOutcome.badRequest, st₁)
                else if ¬ tx.transfers.any fun tr =>
                    tr.source = body.wallet ∧ tr.destination = escrowAddress
                      ∧ tr.lamports = body.stakeLamports then
                  (JoinOutcome.badRequest, st₁)
                else if ¬ (expectedMemo body ∈ tx.memos) then (JoinOutcome.badRequest, st₁)
                else if st₁.entries.any fun e => e.signature = body.signature then
                  (JoinOutcome.okReplay, st₁)
                else
                  (JoinOutcome.okCreated,
                    { st₁ with entries := st₁.entries ++ [entryFromBody body clientIp nowMs] })

/-- A valid join transaction confirmed at block time 150 s (inside the open
window of the sample round). -/
def okJoinTx : ParsedTx :=
  { err := false
    blockTime := some 150
    transfers := [{ source := "WALLET", destination := "ESCROW", lamports := 1000 }]
    memos := ["PANCHO|SOL|SOL-120-5m|UP|5"] }

/-- The same transaction confirmed at block time 180 s — exactly `lock_ts`,
one millisecond past the open window's end. -/
def lateJoinTx : ParsedTx :=
  { err := false
    blockTime := some 180
    transfers := [{ source := "WALLET", destination := "ESCROW", lamports := 1000 }]
    memos := ["PANCHO|SOL|SOL-120-5m|UP|5"] }

/-- Chain view holding the in-window transaction. -/
def joinChainOk : String → Option ParsedTx :=
  fun s => if s = "sig1" then some okJoinTx else none

/-- Chain view holding the late transaction. -/
def joinChainLate : String → Option ParsedTx :=
  fun s => if s = "sig1" then some lateJoinTx else none

/-- A fully valid join payload for round `SOL-120-5m`
(`start = 120000 ms`, `lock = 180000 ms`, `end = 480000 ms`), carrying the
client-chosen `joinedAtMs = 123`. -/
def joinBodySample : JoinBody :=
  { roundId := "SOL-120-5m"
    market := "SOL"
    feedId := "ef0d8b6fda2ceba41da15d4095d1da392a0d2f8ed0c6c7bc0f4cfac8c280b56d"
    wallet := "WALLET"
    direction := "UP"
    signature := "sig1"
    roundStartMs := 120000
    roundEndMs := 480000
    stakeUsd := 5
    stakeLamports := 1000
    joinedAtMs := 123
    startPrice := 0 }

/-- The empty ledger state. -/
def emptyRouteState : RouteState :=
  { entries := [], rl := { walletAttempts := [], ipAttempts := [] } }

/-- **C8.** Failing input for the server-time `joined_at` claim: an accepted
entry submission carrying `joinedAtMs = 123`, received at server time
`999`, is stored with `joined_at = 123` — the client-provided timestamp, not
the server-received time (`joinedAtMs: body.joinedAtMs || Date.now()` only
falls back to server time when the client value is falsy). -/
theorem clientJoinedAtStored :
    (postEntries false "ESCROW" (fun _ => true) joinChainOk (some "1.2.3.4") 999
        joinBodySample emptyRouteState).1 = JoinOutcome.okCreated ∧
    ((postEntries false "ESCROW" (fun _ => true) joinChainOk (some "1.2.3.4") 999
        joinBodySample emptyRouteState).2.entries.map RouteEntry.joinedAtMs) = [123] ∧
    (123 : Int) ≠ 999 := by
  decide

/-- **C9 (amended).** A submission that reaches the open-window check with an
on-chain block time before `start_ts` or at/after `lock_ts` is rejected with
HTTP 400 and no entry is inserted (the join-attempt counters, recorded
before window validation, are the only state change). -/
theorem lateJoinRejectedNoEntry
    (escrowAddress : String) (pubkeyValid : String → Bool)
    (chain : String → Option ParsedTx) (clientIp : Option String) (nowMs : Int)
    (body : JoinBody) (st : RouteState) (tx : ParsedTx) (blockTime : Int)
    (h2 : ¬(body.roundId = "" ∨ body.market = "" ∨ body.feedId = "" ∨ body.wallet = ""
      ∨ body.direction = "" ∨ body.signature = ""))
    (h3 : body.direction = "UP" ∨ body.direction = "DOWN")
    (h4 : body.market ∈ allowedMarkets)
    (h5 : body.stakeUsd ∈ allowedStakes)
    (h6 : ¬(body.stakeUsd < 1 ∨ body.stakeUsd > 5000 ∨ body.stakeLamports ≤ 0
      ∨ body.stakeLamports > 25000000000))
    (h7 : body.roundId = expectedRoundId body)
    (h8 : body.roundStartMs % 120000 = 0)
    (h9 : body.roundEndMs = body.roundStartMs + 360000)
    (h10 : pubkeyValid body.wallet = true)
    (h11 : ¬((countRecentJoinAttempts (recordJoinAttempt st.rl body.wallet clientIp nowMs)
        body.wallet clientIp 60 nowMs).walletCount > 12 ∨
      (countRecentJoinAttempts (recordJoinAttempt st.rl body.wallet clientIp nowMs)
        body.wallet clientIp 60 nowMs).ipCount > 30))
    (h12 : ¬((st.entries.any fun e => e.signature = body.signature) = true))
    (h13 : resolveMarketFeedByKey body.market = body.feedId)
    (h14 : chain body.signature = some tx)
    (h15 : tx.err = false)
    (h16 : tx.blockTime = some blockTime)
    (hwin : blockTime * 1000 < body.roundStartMs
      ∨ blockTime * 1000 ≥ body.roundStartMs + 60000) :
    (postEntries false escrowAddress pubkeyValid chain clientIp nowMs body st).1
        = JoinOutcome.badRequest ∧
    (postEntries false escrowAddress pubkeyValid chain clientIp nowMs body st).2.entries
        = st.entries := by
  simp only [postEntries]
  rw [if_neg (by decide), if_neg h2, if_neg (not_not_intro h3), if_neg (not_not_intro h4),
    if_neg (not_not_intro h5), if_neg h6, if_neg (not_not_intro h7),
    if_neg (not_not_intro h8), if_neg (not_not_intro h9), if_neg (not_not_intro h10),
    if_neg h11, if_neg h12, if_neg (not_not_intro h13), h14]
  simp only [h15, Bool.false_eq_true, if_false, h16]
  rw [if_pos hwin]
  exact ⟨rfl, rfl⟩

/-- **C9 (counterexample).** The late join (block time = `lock_ts`) is
rejected with 400 and inserts no entry, but it is NOT free of ledger
mutation: the join-attempt counters (part of the durable ledger, written at
route.ts line 135 before window validation) now hold the attempt. -/
theorem lateJoinRecordsAttempt :
    (postEntries false "ESCROW" (fun _ => true) joinChainLate (some "1.2.3.4") 999
        joinBodySample emptyRouteState).1 = JoinOutcome.badRequest ∧
    (postEntries false "ESCROW" (fun _ => true) joinChainLate (some "1.2.3.4") 999
        joinBodySample emptyRouteState).2.entries = [] ∧
    (postEntries false "ESCROW" (fun _ => true) joinChainLate (some "1.2.3.4") 999
        joinBodySample emptyRouteState).2.rl.walletAttempts = [("WALLET", [999])] ∧
    (postEntries false "ESCROW" (fun _ => true) joinChainLate (some "1.2.3.4") 999
        joinBodySample emptyRouteState).2 ≠ emptyRouteState := by
  decide

/-- Witness for the amended C9 at the concrete late join. -/
theorem lateJoinRejectedNoEntry_witness :
    ((180 : Int) * 1000 ≥ joinBodySample.roundStartMs + 60000) ∧
    (postEntries false "ESCROW" (fun _ => true) joinChainLate (some "1.2.3.4") 999
        joinBodySample emptyRouteState).1 = JoinOutcome.badRequest ∧
    (postEntries false "ESCROW" (fun _ => true) joinChainLate (some "1.2.3.4") 999
        joinBodySample emptyRouteState).2.entries = emptyRouteState.entries :=
  ⟨by decide,
    lateJoinRejectedNoEntry "ESCROW" (fun _ => true) joinChainLate (some "1.2.3.4") 999
      joinBodySample emptyRouteState lateJoinTx 180
      (by decide) (by decide) (by decide) (by decide) (by decide) (by decide) (by decide)
      (by decide) (by decide) (by decide) (by decide) (by decide) (by decide) (by decide)
      (by decide) (Or.inr (by decide))⟩

end Pancho
